import Mathlib

/-!
Verification of the `parse_iperf3` Ansible module
(`src/library/parse_iperf3.py`): a shallow embedding of its throughput
formatter `bitstoKMGT`, its iperf3 command builder, and the result
extraction / exit-code handling performed in `main`, together with
theorems settling the specification claims.

Modelling conventions: Python numbers that the module feeds through
`float()` are modelled as exact rationals (every value exercised by the
claims is exactly representable in binary floating point, so no binary
rounding is observable); Python dictionaries holding a parsed JSON
report are modelled by the `Json` inductive; code that can raise
(`json.loads`, `dict[key]`, `list[i]`) returns `Except String`.
-/

/-- A Python value as produced by `bitstoKMGT`: the function returns a
string in formatting mode, the number itself in raw mode, and Python's
implicit `None` if no branch matched (unreachable for real inputs). -/
inductive PyVal where
  | num (q : ℚ)
  | str (s : String)
  | none
  deriving DecidableEq

/-- Left-pad the decimal digits of `m` with zeros to width `d`. -/
def leftPadZeros (d : ℕ) (m : ℕ) : String :=
  let s := toString m
  String.mk (List.replicate (d - s.length) '0') ++ s

/-- Decimal rendering of a positive non-integral rational with the least
number of fractional digits (at most 17), used by `pyFloatRepr`: the
scaling `q * 10 ^ d` is computed on the (reduced) numerator and
denominator, so `d` is the least exponent with `q.den ∣ 10 ^ d` and the
scaled numerator is `q.num * (10 ^ d / q.den)`. -/
def pyFloatDigits (q : ℚ) : String :=
  match (List.range 17).find? (fun k => 10 ^ (k + 1) % q.den == 0) with
  | some k =>
    let d := k + 1
    let m := (q.num * ((10 ^ d / q.den : ℕ) : ℤ)).toNat
    toString (m / 10 ^ d) ++ "." ++ leftPadZeros d (m % 10 ^ d)
  | Option.none => toString q.num ++ " / " ++ toString q.den

/-- Models CPython `str()` applied to a float variable holding the exact
rational value `q` (as `"{0}".format` does in `bitstoKMGT`): integral
values render as `"n.0"`, decimal-representable values as their shortest
decimal expansion. -/
def pyFloatRepr (q : ℚ) : String :=
  if q.den = 1 then toString q.num ++ ".0"
  else if q < 0 then "-" ++ pyFloatDigits (-q)
  else pyFloatDigits q

/-- Round the fraction `n / d` (with `d > 0`) to the nearest integer,
ties to even — the rounding CPython's `"{0:.2f}".format` applies to the
(here exact) value. -/
def roundToInt (n d : ℤ) : ℤ :=
  let f := n.fdiv d
  let r2 := 2 * (n - f * d)
  if r2 < d then f
  else if d < r2 then f + 1
  else if f % 2 = 0 then f else f + 1

/-- Models Python `"{0:.2f}".format(q)`: the value rendered with exactly
two decimal places, i.e. `q * 100 = 100 * q.num / q.den` rounded to the
nearest integer (ties to even) and printed with the last two digits
after a decimal point. -/
def format2f (q : ℚ) : String :=
  let n := roundToInt (100 * q.num) (q.den : ℤ)
  let sign := if n < 0 then "-" else ""
  let m := n.natAbs
  sign ++ toString (m / 100) ++ "." ++
    (if m % 100 < 10 then "0" else "") ++ toString (m % 100)

/-- The module's throughput formatter `bitstoKMGT(b, israw=0)`.
With `israw` truthy the input is returned unchanged. Otherwise
`b = float(b)` and the thresholds `Kb = 1000.0`, `Mb = Kb**2 = 1e6`,
`Gb = Kb**3 = 1e9`, `Tb = Kb**4 = 1e12` (written out as literals here)
select the unit; the sub-`Kb` branch renders
`"{0} {1}".format(b, "Bytes" if 0 == b > 1 else "Byte")`, whose chained
comparison means `0 == b and b > 1`. A fall-through (impossible, since
the branches cover all reals) gives Python's implicit `None`. -/
def bitstoKMGT (b : ℚ) (israw : ℕ := 0) : PyVal :=
  if israw ≠ 0 then PyVal.num b
  else if b < 1000 then
    PyVal.str (pyFloatRepr b ++ " " ++ (if 0 = b ∧ 1 < b then "Bytes" else "Byte"))
  else if 1000 ≤ b ∧ b < 1000000 then
    PyVal.str (format2f (b / 1000) ++ " Kbps")
  else if 1000000 ≤ b ∧ b < 1000000000 then
    PyVal.str (format2f (b / 1000000) ++ " Mbps")
  else if 1000000000 ≤ b ∧ b < 1000000000000 then
    PyVal.str (format2f (b / 1000000000) ++ " Gbps")
  else if 1000000000000 ≤ b then
    PyVal.str (format2f (b / 1000000000000) ++ " Tbps")
  else PyVal.none

/-- A JSON value, as produced by `json.loads` on the iperf3 report. -/
inductive Json where
  | null
  | bool (b : Bool)
  | num (q : ℚ)
  | str (s : String)
  | arr (xs : List Json)
  | obj (kvs : List (String × Json))

/-- Python `payload[k]` on a parsed JSON value: returns the value bound
to key `k`, raising `KeyError` when absent and `TypeError` when the
value is not a dict. -/
def Json.get (j : Json) (k : String) : Except String Json :=
  match j with
  | .obj kvs =>
    match kvs.find? (fun p => p.1 == k) with
    | some p => Except.ok p.2
    | Option.none => Except.error ("KeyError: " ++ k)
  | _ => Except.error "TypeError: not a dict"

/-- Python `payload[i]` on a parsed JSON value: returns element `i`,
raising `IndexError` when out of range and `TypeError` when the value is
not a list. -/
def Json.idx (j : Json) (i : ℕ) : Except String Json :=
  match j with
  | .arr xs =>
    match xs[i]? with
    | some x => Except.ok x
    | Option.none => Except.error "IndexError: list index out of range"
  | _ => Except.error "TypeError: not a list"

/-- Python truthiness of a JSON value (used for `if issender:`). -/
def Json.truthy : Json → Bool
  | .null => false
  | .bool b => b
  | .num q => decide (q ≠ 0)
  | .str s => decide (s ≠ "")
  | .arr xs => !xs.isEmpty
  | .obj kvs => !kvs.isEmpty

/-- Python `float()` applied to a JSON value (the conversion `b = float(b)`
performed inside `bitstoKMGT`, surfaced at its call sites here because the
Lean `bitstoKMGT` takes a rational): numbers convert to themselves, bools
to 0/1, everything else raises `TypeError` (numeric strings never occur
in an iperf3 report and are modelled as the same error). -/
def pyFloat : Json → Except String ℚ
  | .num q => Except.ok q
  | .bool b => Except.ok (if b then 1 else 0)
  | _ => Except.error "TypeError: float() argument"

/-- The summary dictionary `res` built by `main` on a successful run.
The two throughput entries are conditionally present, hence `Option`. -/
structure Summary where
  local_host : Json
  local_port : Json
  remote_host : Json
  remote_port : Json
  total_received : Option PyVal
  total_sent : Option PyVal
  type : String

/-- The lookup chain `payload["start"]["connected"][0][k]`. -/
def connField (p : Json) (k : String) : Except String Json :=
  (((p.get "start").bind (fun j => j.get "connected")).bind (fun j => j.idx 0)).bind
    (fun j => j.get k)

/-- The lookup chain `payload["end"][agg][k]`. -/
def endField (p : Json) (agg k : String) : Except String Json :=
  ((p.get "end").bind (fun j => j.get agg)).bind (fun j => j.get k)

/-- The extraction `main` performs on the decoded report when `rc == 0`:
the four connection fields, then — depending on the UDP flag — either
the single `end.sum` aggregate (one throughput entry, chosen by its
`sender` flag) or both `end.sum_sent` / `end.sum_received` aggregates.
Lookups follow the source's order; any failed lookup aborts the chain,
modelling the uncaught Python exception. -/
def extract (udp : Bool) (payload : Json) : Except String Summary :=
  (connField payload "local_host").bind fun lh =>
  (connField payload "local_port").bind fun lp =>
  (connField payload "remote_host").bind fun rh =>
  (connField payload "remote_port").bind fun rp =>
  if udp then
    (endField payload "sum" "sender").bind fun issender =>
    (endField payload "sum" "bits_per_second").bind fun bpsj =>
    (pyFloat bpsj).bind fun bps =>
    if issender.truthy then
      Except.ok ⟨lh, lp, rh, rp, Option.none, some (bitstoKMGT bps), "sender"⟩
    else
      Except.ok ⟨lh, lp, rh, rp, some (bitstoKMGT bps), Option.none, "receiver"⟩
  else
    (endField payload "sum_received" "bits_per_second").bind fun rbpsj =>
    (pyFloat rbpsj).bind fun rbps =>
    (endField payload "sum_sent" "bits_per_second").bind fun sbpsj =>
    (pyFloat sbpsj).bind fun sbps =>
    (endField payload "sum_sent" "sender").bind fun issender =>
    Except.ok ⟨lh, lp, rh, rp, some (bitstoKMGT rbps), some (bitstoKMGT sbps),
      if issender.truthy then "sender" else "receiver"⟩

/-- A well-formed TCP report with `sum_sent.bits_per_second = 2e6`,
`sum_received.bits_per_second = 1.5e6` and `sum_sent.sender = true`. -/
def tcpSample : Json :=
  Json.obj [
    ("start", Json.obj [
      ("connected", Json.arr [Json.obj [
        ("local_host", Json.str "127.0.0.1"),
        ("local_port", Json.num 35016),
        ("remote_host", Json.str "127.0.0.1"),
        ("remote_port", Json.num 5201)]])]),
    ("end", Json.obj [
      ("sum_sent", Json.obj [
        ("bits_per_second", Json.num 2000000),
        ("sender", Json.bool true)]),
      ("sum_received", Json.obj [
        ("bits_per_second", Json.num 1500000)])])]

/-- A well-formed UDP report with `end.sum.sender = true` and
`end.sum.bits_per_second = 1e6`. -/
def udpSample : Json :=
  Json.obj [
    ("start", Json.obj [
      ("connected", Json.arr [Json.obj [
        ("local_host", Json.str "127.0.0.1"),
        ("local_port", Json.num 35020),
        ("remote_host", Json.str "127.0.0.1"),
        ("remote_port", Json.num 5201)]])]),
    ("end", Json.obj [
      ("sum", Json.obj [
        ("sender", Json.bool true),
        ("bits_per_second", Json.num 1000000)])])]

/-- The caller-facing result envelope: `module.fail_json(...)` for the
`rc == 1` branch (with its derived `msg`), and `module.exit_json(...)`
for the `rc == 0` branch (with the parsed summary) and for the final
pass-through (without one). -/
inductive ModuleResult where
  | failJson (changed : Bool) (stdout : String) (rc : ℤ) (stderr : String)
      (cmd : String) (msg : String)
  | exitJson (changed : Bool) (stdout : String) (rc : ℤ) (stderr : String)
      (cmd : String) (parsed : Option Summary)

/-- The `changed` flag reported to the caller. -/
def ModuleResult.changed : ModuleResult → Bool
  | .failJson c _ _ _ _ _ => c
  | .exitJson c _ _ _ _ _ => c

def unableMsg : String := "unable to connect to server"

/-- The failure message derived on the `rc == 1` branch: the literal
`"unable to connect to server"` when captured stdout contains that
substring (Python `in`), the empty string otherwise. -/
def connMsg (out : String) : String :=
  if unableMsg.data <:+: out.data then unableMsg else ""

/-- The exit-code handling at the end of `main`, after
`rc, out, err = module.run_command(run_cmd)`. `outJson` is the outcome
of `json.loads(out)` (`Except.error` when stdout is not valid JSON);
the outer `Except` models an uncaught Python exception escaping the
module. `rc == 1` fails with the derived message; `rc == 0` decodes and
extracts, any decode or lookup error propagating unhandled; any other
exit code passes the raw capture through with neither summary nor
message. -/
def mainStep (udp : Bool) (runCmd : String) (rc : ℤ) (out err : String)
    (outJson : Except String Json) : Except String ModuleResult :=
  if rc = 1 then
    Except.ok (ModuleResult.failJson false out rc err runCmd (connMsg out))
  else if rc = 0 then
    (outJson.bind (extract udp)).map
      (fun res => ModuleResult.exitJson false out rc err runCmd (some res))
  else
    Except.ok (ModuleResult.exitJson false out rc err runCmd Option.none)

/-- The validated module parameters, as read from `module.params`.
Optional parameters that the user omitted (and whose Ansible default,
where declared, was not applied) are `none`; the Python code guards each
with its truthiness. -/
structure Options where
  dest : String
  time : Option ℤ
  port : Option ℤ
  bind : Option String
  udp : Option Bool
  interval : Option ℤ
  bitrate : Option String
  length : Option String
  streams : Option ℤ
  reverse : Option Bool
  connection_timeout : Option ℤ

/-- Python truthiness of an optional int parameter. -/
def truthyInt : Option ℤ → Bool
  | Option.none => false
  | some n => decide (n ≠ 0)

/-- Python truthiness of an optional string parameter. -/
def truthyStr : Option String → Bool
  | Option.none => false
  | some s => decide (s ≠ "")

/-- Python truthiness of an optional bool parameter. -/
def truthyBool : Option Bool → Bool
  | Option.none => false
  | some b => b

/-- `if v: cmd.append(mk(v))` for an int-valued option. -/
def intArg (v : Option ℤ) (mk : ℤ → String) : List String :=
  match v with
  | Option.none => []
  | some n => if n = 0 then [] else [mk n]

/-- `if v: cmd.append(mk(v))` for a string-valued option. -/
def strArg (v : Option String) (mk : String → String) : List String :=
  match v with
  | Option.none => []
  | some s => if s = "" then [] else [mk s]

/-- `if v: cmd.append(flag)` for a bool-valued option. -/
def boolArg (v : Option Bool) (flag : String) : List String :=
  match v with
  | some true => [flag]
  | _ => []

def mkCT (t : ℤ) : String := "--connect-timeout " ++ toString (t * 1000)

def mkTime (t : ℤ) : String := "--time " ++ toString t

def mkPort (p : ℤ) : String := "--port " ++ toString p

def mkBind (b : String) : String := "--bind " ++ b

def mkInterval (i : ℤ) : String := "--interval " ++ toString i

def mkBitrate (b : String) : String := "--bitrate " ++ b

def mkLength (l : String) : String := "--length " ++ l

def mkParallel (s : ℤ) : String := "--parallel " ++ toString s

/-- The command list built by `main`: `["iperf3"]`, then the destination
(`f"-c { dest }"`), then JSON output (`-J`), then one element per truthy
optional parameter, in source order; the connection timeout is converted
from seconds to milliseconds (`timeout * 1000`). -/
def buildCmd (o : Options) : List String :=
  ["iperf3", "-c " ++ o.dest, "-J"]
    ++ intArg o.connection_timeout mkCT
    ++ intArg o.time mkTime
    ++ intArg o.port mkPort
    ++ strArg o.bind mkBind
    ++ boolArg o.udp "--udp"
    ++ intArg o.interval mkInterval
    ++ strArg o.bitrate mkBitrate
    ++ strArg o.length mkLength
    ++ intArg o.streams mkParallel
    ++ boolArg o.reverse "--reverse"

/-- `pfx f s`: the argument string `s` starts with the flag text `f`. -/
def pfx (f : String) (s : String) : Bool := f.data.isPrefixOf s.data

/-- Closed form of `(intArg v mk).countP q`. -/
def cntInt (q : String → Bool) (v : Option ℤ) (mk : ℤ → String) : ℕ :=
  match v with
  | Option.none => 0
  | some n => if n = 0 then 0 else if q (mk n) then 1 else 0

/-- Closed form of `(strArg v mk).countP q`. -/
def cntStr (q : String → Bool) (v : Option String) (mk : String → String) : ℕ :=
  match v with
  | Option.none => 0
  | some s => if s = "" then 0 else if q (mk s) then 1 else 0

/-- Closed form of `(boolArg v flag).countP q`. -/
def cntBool (q : String → Bool) (v : Option Bool) (flag : String) : ℕ :=
  match v with
  | some true => if q flag then 1 else 0
  | _ => 0

/-- A representative option set: destination plus the defaulted fields
(time 5, streams 1, connection timeout 5 seconds). -/
def sampleOptions : Options :=
  ⟨"127.0.0.1", some 5, Option.none, Option.none, Option.none, Option.none,
    Option.none, Option.none, some 1, Option.none, some 5⟩

theorem c1_zero_eval : bitstoKMGT 0 = PyVal.str "0.0 Byte" := by decide

/-- C1: the claim fails on the code. `bitstoKMGT(0)` evaluates to
`"0.0 Byte"`: the guard `0 == b > 1` is the chained comparison
`0 == b and b > 1`, which is unsatisfiable, so the `"Bytes"` unit is
never produced, and `float(0)` renders as `"0.0"`, not `"0"`. -/
theorem c1_counterexample : bitstoKMGT 0 ≠ PyVal.str "0 Bytes" := by decide

/-- C1 (amended): on every non-negative input below 1000 — including
0 — the non-raw formatter returns the value rendered as Python renders
the float (in particular an integral value `n` renders as `"n.0"`)
followed by the singular unit `" Byte"`; the `"Bytes"` branch is dead
code, since its guard `0 == b > 1` requires `0 == b` and `b > 1`
simultaneously. -/
theorem c1_amended (b : ℚ) :
    (0 ≤ b → b < 1000 → bitstoKMGT b = PyVal.str (pyFloatRepr b ++ " Byte"))
    ∧ (∀ n : ℕ, n < 1000 → bitstoKMGT (n : ℚ) = PyVal.str (toString n ++ ".0 Byte")) := by
  have key : ∀ c : ℚ, 0 ≤ c → c < 1000 →
      bitstoKMGT c = PyVal.str (pyFloatRepr c ++ " Byte") := by
    intro c h0 h1
    have hplural : ¬ ((0 : ℚ) = c ∧ 1 < c) := by
      rintro ⟨he, hgt⟩
      rw [← he] at hgt
      norm_num at hgt
    unfold bitstoKMGT
    rw [if_neg (by norm_num), if_pos h1, if_neg hplural]
    congr 1
    have hs : (" " : String) ++ "Byte" = " Byte" := by decide
    rw [String.append_assoc, hs]
  refine ⟨key b, ?_⟩
  intro n hn
  have hrep : pyFloatRepr (n : ℚ) = toString n ++ ".0" := by
    unfold pyFloatRepr
    rw [if_pos (Rat.den_natCast n)]
    congr 1
  rw [key (n : ℚ) (by positivity) (by exact_mod_cast hn), hrep]
  congr 1
  have hs : (".0" : String) ++ " Byte" = ".0 Byte" := by decide
  rw [String.append_assoc, hs]

theorem c1_amended_witness :
    bitstoKMGT (mkRat 1 2) = PyVal.str "0.5 Byte"
    ∧ bitstoKMGT ((500 : ℕ) : ℚ) = PyVal.str "500.0 Byte" := by
  constructor
  · rw [(c1_amended (mkRat 1 2)).1 (by rw [Rat.mkRat_eq_div]; norm_num)
      (by rw [Rat.mkRat_eq_div]; norm_num)]
    decide
  · rw [(c1_amended 0).2 500 (by norm_num)]
    decide

/-- C2: in non-raw mode the thresholds are base 1000: values in
`[1000, 1e6)` are divided by `1e3` and rendered with two decimals and
suffix `Kbps`, `[1e6, 1e9)` by `1e6` with `Mbps`, `[1e9, 1e12)` by `1e9`
with `Gbps`, and `≥ 1e12` by `1e12` with `Tbps`; in particular
`format(1000) = "1.00 Kbps"`, `format(1e6) = "1.00 Mbps"`,
`format(1e9) = "1.00 Gbps"`, `format(1e12) = "1.00 Tbps"`. -/
theorem c2_thresholds (b : ℚ) :
    (1000 ≤ b ∧ b < 10 ^ 6 → bitstoKMGT b = PyVal.str (format2f (b / 10 ^ 3) ++ " Kbps"))
    ∧ (10 ^ 6 ≤ b ∧ b < 10 ^ 9 → bitstoKMGT b = PyVal.str (format2f (b / 10 ^ 6) ++ " Mbps"))
    ∧ (10 ^ 9 ≤ b ∧ b < 10 ^ 12 → bitstoKMGT b = PyVal.str (format2f (b / 10 ^ 9) ++ " Gbps"))
    ∧ (10 ^ 12 ≤ b → bitstoKMGT b = PyVal.str (format2f (b / 10 ^ 12) ++ " Tbps"))
    ∧ bitstoKMGT 1000 = PyVal.str "1.00 Kbps"
    ∧ bitstoKMGT 1000000 = PyVal.str "1.00 Mbps"
    ∧ bitstoKMGT 1000000000 = PyVal.str "1.00 Gbps"
    ∧ bitstoKMGT 1000000000000 = PyVal.str "1.00 Tbps" := by
  refine ⟨?_, ?_, ?_, ?_, ?_, ?_, ?_, ?_⟩
  · rintro ⟨h1, h2⟩
    norm_num at h2
    unfold bitstoKMGT
    rw [if_neg (by norm_num), if_neg (not_lt.mpr h1), if_pos ⟨h1, h2⟩]
    norm_num
  · rintro ⟨h1, h2⟩
    norm_num at h1 h2
    unfold bitstoKMGT
    rw [if_neg (by norm_num), if_neg (not_lt.mpr (by linarith)),
      if_neg (by rintro ⟨h3, h4⟩; linarith), if_pos ⟨h1, h2⟩]
    norm_num
  · rintro ⟨h1, h2⟩
    norm_num at h1 h2
    unfold bitstoKMGT
    rw [if_neg (by norm_num), if_neg (not_lt.mpr (by linarith)),
      if_neg (by rintro ⟨h3, h4⟩; linarith), if_neg (by rintro ⟨h3, h4⟩; linarith),
      if_pos ⟨h1, h2⟩]
    norm_num
  · intro h1
    norm_num at h1
    unfold bitstoKMGT
    rw [if_neg (by norm_num), if_neg (not_lt.mpr (by linarith)),
      if_neg (by rintro ⟨h3, h4⟩; linarith), if_neg (by rintro ⟨h3, h4⟩; linarith),
      if_neg (by rintro ⟨h3, h4⟩; linarith), if_pos h1]
    norm_num
  · unfold bitstoKMGT
    rw [if_neg (by norm_num), if_neg (by norm_num),
      if_pos (by norm_num : (1000 : ℚ) ≤ 1000 ∧ (1000 : ℚ) < 1000000),
      show (1000 : ℚ) / 1000 = 1 by norm_num]
    decide
  · unfold bitstoKMGT
    rw [if_neg (by norm_num), if_neg (by norm_num), if_neg (by norm_num),
      if_pos (by norm_num : (1000000 : ℚ) ≤ 1000000 ∧ (1000000 : ℚ) < 1000000000),
      show (1000000 : ℚ) / 1000000 = 1 by norm_num]
    decide
  · unfold bitstoKMGT
    rw [if_neg (by norm_num), if_neg (by norm_num), if_neg (by norm_num), if_neg (by norm_num),
      if_pos (by norm_num : (1000000000 : ℚ) ≤ 1000000000 ∧ (1000000000 : ℚ) < 1000000000000),
      show (1000000000 : ℚ) / 1000000000 = 1 by norm_num]
    decide
  · unfold bitstoKMGT
    rw [if_neg (by norm_num), if_neg (by norm_num), if_neg (by norm_num), if_neg (by norm_num),
      if_neg (by norm_num),
      if_pos (by norm_num : (1000000000000 : ℚ) ≤ 1000000000000),
      show (1000000000000 : ℚ) / 1000000000000 = 1 by norm_num]
    decide

theorem c2_thresholds_witness : bitstoKMGT 2000000 = PyVal.str "2.00 Mbps" := by
  have h := (c2_thresholds 2000000).2.1 ⟨by norm_num, by norm_num⟩
  rw [h, show (2000000 : ℚ) / 10 ^ 6 = 2 by norm_num]
  decide

/-- C3: in TCP (non-UDP) mode, extraction of a well-formed report always
populates both throughput entries — `total_received` from
`end.sum_received.bits_per_second` and `total_sent` from
`end.sum_sent.bits_per_second` — and the role tag is determined solely
by `end.sum_sent.sender`. -/
theorem c3_tcp (p lh lp rh rp sj : Json) (rq sq : ℚ)
    (h1 : connField p "local_host" = Except.ok lh)
    (h2 : connField p "local_port" = Except.ok lp)
    (h3 : connField p "remote_host" = Except.ok rh)
    (h4 : connField p "remote_port" = Except.ok rp)
    (h5 : endField p "sum_received" "bits_per_second" = Except.ok (Json.num rq))
    (h6 : endField p "sum_sent" "bits_per_second" = Except.ok (Json.num sq))
    (h7 : endField p "sum_sent" "sender" = Except.ok sj) :
    extract false p = Except.ok ⟨lh, lp, rh, rp, some (bitstoKMGT rq), some (bitstoKMGT sq),
      if sj.truthy then "sender" else "receiver"⟩ := by
  unfold extract
  rw [h1, h2, h3, h4, h5, h6, h7]
  simp [Except.bind, pyFloat]

/-- C4: in UDP mode, extraction of a well-formed report populates exactly
one throughput entry: `total_sent` (role `"sender"`, no `total_received`)
when `end.sum.sender` is truthy, otherwise `total_received` (role
`"receiver"`, no `total_sent`), both formatted from
`end.sum.bits_per_second`. -/
theorem c4_udp (p lh lp rh rp sj : Json) (q : ℚ)
    (h1 : connField p "local_host" = Except.ok lh)
    (h2 : connField p "local_port" = Except.ok lp)
    (h3 : connField p "remote_host" = Except.ok rh)
    (h4 : connField p "remote_port" = Except.ok rp)
    (h5 : endField p "sum" "sender" = Except.ok sj)
    (h6 : endField p "sum" "bits_per_second" = Except.ok (Json.num q)) :
    extract true p =
      if sj.truthy then
        Except.ok ⟨lh, lp, rh, rp, Option.none, some (bitstoKMGT q), "sender"⟩
      else
        Except.ok ⟨lh, lp, rh, rp, some (bitstoKMGT q), Option.none, "receiver"⟩ := by
  unfold extract
  rw [h1, h2, h3, h4, h5, h6]
  simp [Except.bind, pyFloat]

theorem c3_tcp_witness :
    extract false tcpSample = Except.ok ⟨Json.str "127.0.0.1", Json.num 35016,
      Json.str "127.0.0.1", Json.num 5201, some (PyVal.str "1.50 Mbps"),
      some (PyVal.str "2.00 Mbps"), "sender"⟩ := by
  have h := c3_tcp tcpSample (Json.str "127.0.0.1") (Json.num 35016) (Json.str "127.0.0.1")
    (Json.num 5201) (Json.bool true) 1500000 2000000 rfl rfl rfl rfl rfl rfl rfl
  rw [h]
  have e1 : bitstoKMGT 1500000 = PyVal.str "1.50 Mbps" := by
    unfold bitstoKMGT
    rw [if_neg (by norm_num), if_neg (by norm_num), if_neg (by norm_num),
      if_pos (by norm_num : (1000000 : ℚ) ≤ 1500000 ∧ (1500000 : ℚ) < 1000000000),
      show (1500000 : ℚ) / 1000000 = mkRat 3 2 by norm_num [Rat.mkRat_eq_div]]
    decide
  have e2 : bitstoKMGT 2000000 = PyVal.str "2.00 Mbps" := by
    unfold bitstoKMGT
    rw [if_neg (by norm_num), if_neg (by norm_num), if_neg (by norm_num),
      if_pos (by norm_num : (1000000 : ℚ) ≤ 2000000 ∧ (2000000 : ℚ) < 1000000000),
      show (2000000 : ℚ) / 1000000 = 2 by norm_num]
    decide
  rw [e1, e2]
  rfl

theorem c4_udp_witness :
    extract true udpSample = Except.ok ⟨Json.str "127.0.0.1", Json.num 35020,
      Json.str "127.0.0.1", Json.num 5201, Option.none,
      some (PyVal.str "1.00 Mbps"), "sender"⟩ := by
  have h := c4_udp udpSample (Json.str "127.0.0.1") (Json.num 35020) (Json.str "127.0.0.1")
    (Json.num 5201) (Json.bool true) 1000000 rfl rfl rfl rfl rfl rfl
  rw [h]
  have e1 : bitstoKMGT 1000000 = PyVal.str "1.00 Mbps" := by
    unfold bitstoKMGT
    rw [if_neg (by norm_num), if_neg (by norm_num), if_neg (by norm_num),
      if_pos (by norm_num : (1000000 : ℚ) ≤ 1000000 ∧ (1000000 : ℚ) < 1000000000),
      show (1000000 : ℚ) / 1000000 = 1 by norm_num]
    decide
  rw [if_pos (by decide : (Json.bool true).truthy = true), e1]

/-- C7: on exit code 1 the invocation fails via `fail_json`, and the
failure message is exactly `"unable to connect to server"` iff captured
stdout contains that substring, and empty otherwise. -/
theorem c7_exit1 (udp : Bool) (runCmd out err : String) (oj : Except String Json) :
    mainStep udp runCmd 1 out err oj
      = Except.ok (ModuleResult.failJson false out 1 err runCmd (connMsg out))
    ∧ (connMsg out = unableMsg ↔ unableMsg.data <:+: out.data)
    ∧ (¬ unableMsg.data <:+: out.data → connMsg out = "") := by
  refine ⟨by unfold mainStep; simp, ?_, ?_⟩
  · unfold connMsg
    split
    · case isTrue hin => simp [hin]
    · case isFalse hin =>
      simp only [hin, iff_false]
      intro he
      exact absurd he (by decide)
  · intro h
    unfold connMsg
    rw [if_neg h]

theorem c7_exit1_witness :
    mainStep false "iperf3 -c h -J" 1 "xyz" "" (Except.error "e")
      = Except.ok (ModuleResult.failJson false "xyz" 1 "" "iperf3 -c h -J" "") := by
  have h := c7_exit1 false "iperf3 -c h -J" "xyz" "" (Except.error "e")
  have h3 : connMsg "xyz" = "" := h.2.2 (by decide)
  rw [h.1, h3]

/-- C8: on any exit code other than 0 and 1, the raw capture (stdout,
stderr, exit code, command) is passed through via `exit_json` with no
derived summary and no derived message. -/
theorem c8_other (udp : Bool) (runCmd : String) (rc : ℤ) (out err : String)
    (oj : Except String Json) (h0 : rc ≠ 0) (h1 : rc ≠ 1) :
    mainStep udp runCmd rc out err oj
      = Except.ok (ModuleResult.exitJson false out rc err runCmd Option.none) := by
  unfold mainStep
  rw [if_neg h1, if_neg h0]

theorem c8_other_witness :
    mainStep false "iperf3 -c h -J" 2 "o" "e" (Except.error "x")
      = Except.ok (ModuleResult.exitJson false "o" 2 "e" "iperf3 -c h -J" Option.none) :=
  c8_other false "iperf3 -c h -J" 2 "o" "e" (Except.error "x") (by decide) (by decide)

/-- C9: on exit code 0, whenever decoding stdout fails (invalid JSON) or
the decoded report lacks an expected nested key (so the extraction
lookups fail), the error propagates unhandled: `mainStep` yields that
error and no summary — no defensive default is substituted. -/
theorem c9_propagates (udp : Bool) (runCmd out err : String)
    (oj : Except String Json) (e : String)
    (h : oj.bind (extract udp) = Except.error e) :
    mainStep udp runCmd 0 out err oj = Except.error e := by
  unfold mainStep
  rw [if_neg (by decide : ¬ (0 : ℤ) = 1), if_pos rfl, h]
  rfl

theorem c9_propagates_witness :
    mainStep false "iperf3 -c h -J" 0 "not json" "" (Except.ok (Json.obj []))
      = Except.error "KeyError: start" :=
  c9_propagates false "iperf3 -c h -J" "not json" "" (Except.ok (Json.obj []))
    "KeyError: start" rfl

/-- C10: every result envelope the module hands back to the caller — the
`rc == 1` failure, the `rc == 0` success with summary, and the raw
pass-through for any other exit code — carries `changed = false`. -/
theorem c10_changed (udp : Bool) (runCmd : String) (rc : ℤ) (out err : String)
    (oj : Except String Json) (r : ModuleResult)
    (h : mainStep udp runCmd rc out err oj = Except.ok r) :
    r.changed = false := by
  unfold mainStep at h
  split at h
  · simp only [Except.ok.injEq] at h
    subst h
    rfl
  · split at h
    · cases hx : oj.bind (extract udp) with
      | error e => rw [hx] at h; simp [Except.map] at h
      | ok s =>
        rw [hx] at h
        simp only [Except.map, Except.ok.injEq] at h
        subst h
        rfl
    · simp only [Except.ok.injEq] at h
      subst h
      rfl

theorem c10_changed_witness :
    ModuleResult.changed (ModuleResult.exitJson false "o" 2 "e" "c" Option.none) = false :=
  c10_changed false "c" 2 "o" "e" (Except.error "x")
    (ModuleResult.exitJson false "o" 2 "e" "c" Option.none) rfl

theorem pfx_self_append (f x : String) : pfx f (f ++ x) = true := by
  have h : (f ++ x).data = f.data ++ x.data := String.data_append f x
  unfold pfx
  rw [h]
  exact List.isPrefixOf_iff_prefix.mpr (List.prefix_append _ _)

theorem pfx_false_of (f a x : String) (h1 : ¬ f.data <+: a.data)
    (h2 : ¬ a.data <+: f.data) : pfx f (a ++ x) = false := by
  unfold pfx
  rw [String.data_append]
  cases hp : f.data.isPrefixOf (a.data ++ x.data) with
  | false => rfl
  | true =>
    exfalso
    have hp2 : f.data <+: a.data ++ x.data := List.isPrefixOf_iff_prefix.mp hp
    have hcomp := List.prefix_or_prefix_of_prefix hp2 (List.prefix_append a.data x.data)
    exact hcomp.elim h1 h2

theorem countP_intArg (q : String → Bool) (v : Option ℤ) (mk : ℤ → String) :
    (intArg v mk).countP q = cntInt q v mk := by
  cases v with
  | none => rfl
  | some n =>
    show List.countP q (if n = 0 then [] else [mk n])
      = if n = 0 then 0 else if q (mk n) then 1 else 0
    split <;> simp [List.countP_cons]

theorem countP_strArg (q : String → Bool) (v : Option String) (mk : String → String) :
    (strArg v mk).countP q = cntStr q v mk := by
  cases v with
  | none => rfl
  | some s =>
    show List.countP q (if s = "" then [] else [mk s])
      = if s = "" then 0 else if q (mk s) then 1 else 0
    split <;> simp [List.countP_cons]

theorem countP_boolArg (q : String → Bool) (v : Option Bool) (flag : String) :
    (boolArg v flag).countP q = cntBool q v flag := by
  match v with
  | Option.none => rfl
  | some true => simp [boolArg, cntBool, List.countP_cons]
  | some false => rfl

theorem cntInt_of_false (q : String → Bool) (v : Option ℤ) (mk : ℤ → String)
    (h : ∀ n, q (mk n) = false) : cntInt q v mk = 0 := by
  cases v with
  | none => rfl
  | some n => simp [cntInt, h]

theorem cntInt_of_true (q : String → Bool) (v : Option ℤ) (mk : ℤ → String)
    (h : ∀ n, q (mk n) = true) : cntInt q v mk = if truthyInt v then 1 else 0 := by
  cases v with
  | none => rfl
  | some n =>
    by_cases h0 : n = 0
    · simp [cntInt, truthyInt, h0]
    · simp [cntInt, truthyInt, h0, h]

theorem cntStr_of_false (q : String → Bool) (v : Option String) (mk : String → String)
    (h : ∀ s, q (mk s) = false) : cntStr q v mk = 0 := by
  cases v with
  | none => rfl
  | some s => simp [cntStr, h]

theorem cntStr_of_true (q : String → Bool) (v : Option String) (mk : String → String)
    (h : ∀ s, q (mk s) = true) : cntStr q v mk = if truthyStr v then 1 else 0 := by
  cases v with
  | none => rfl
  | some s =>
    by_cases h0 : s = ""
    · simp [cntStr, truthyStr, h0]
    · simp [cntStr, truthyStr, h0, h]

theorem cntBool_of_false (q : String → Bool) (v : Option Bool) (flag : String)
    (h : q flag = false) : cntBool q v flag = 0 := by
  match v with
  | Option.none => rfl
  | some true => simp [cntBool, h]
  | some false => rfl

theorem cntBool_of_true (q : String → Bool) (v : Option Bool) (flag : String)
    (h : q flag = true) : cntBool q v flag = if truthyBool v then 1 else 0 := by
  match v with
  | Option.none => rfl
  | some true => simp [cntBool, truthyBool, h]
  | some false => rfl

theorem count_ct (o : Options) :
    (buildCmd o).countP (pfx "--connect-timeout ") = if truthyInt o.connection_timeout then 1 else 0 := by
  have hdest : pfx "--connect-timeout " ("-c " ++ o.dest) = false :=
    pfx_false_of _ _ _ (by decide) (by decide)
  unfold buildCmd
  simp only [List.countP_append, countP_intArg, countP_strArg, countP_boolArg,
    List.countP_cons, List.countP_nil]
  rw [cntInt_of_true (pfx "--connect-timeout ") o.connection_timeout mkCT (fun n => pfx_self_append _ _),
    cntInt_of_false (pfx "--connect-timeout ") o.time mkTime (fun n => pfx_false_of _ _ _ (by decide) (by decide)),
    cntInt_of_false (pfx "--connect-timeout ") o.port mkPort (fun n => pfx_false_of _ _ _ (by decide) (by decide)),
    cntStr_of_false (pfx "--connect-timeout ") o.bind mkBind (fun s => pfx_false_of _ _ _ (by decide) (by decide)),
    cntBool_of_false (pfx "--connect-timeout ") o.udp "--udp" (by decide),
    cntInt_of_false (pfx "--connect-timeout ") o.interval mkInterval (fun n => pfx_false_of _ _ _ (by decide) (by decide)),
    cntStr_of_false (pfx "--connect-timeout ") o.bitrate mkBitrate (fun s => pfx_false_of _ _ _ (by decide) (by decide)),
    cntStr_of_false (pfx "--connect-timeout ") o.length mkLength (fun s => pfx_false_of _ _ _ (by decide) (by decide)),
    cntInt_of_false (pfx "--connect-timeout ") o.streams mkParallel (fun n => pfx_false_of _ _ _ (by decide) (by decide)),
    cntBool_of_false (pfx "--connect-timeout ") o.reverse "--reverse" (by decide)]
  simp [hdest, (by decide : pfx "--connect-timeout " "iperf3" = false),
    (by decide : pfx "--connect-timeout " "-J" = false)]

theorem count_time (o : Options) :
    (buildCmd o).countP (pfx "--time ") = if truthyInt o.time then 1 else 0 := by
  have hdest : pfx "--time " ("-c " ++ o.dest) = false :=
    pfx_false_of _ _ _ (by decide) (by decide)
  unfold buildCmd
  simp only [List.countP_append, countP_intArg, countP_strArg, countP_boolArg,
    List.countP_cons, List.countP_nil]
  rw [cntInt_of_false (pfx "--time ") o.connection_timeout mkCT (fun n => pfx_false_of _ _ _ (by decide) (by decide)),
    cntInt_of_true (pfx "--time ") o.time mkTime (fun n => pfx_self_append _ _),
    cntInt_of_false (pfx "--time ") o.port mkPort (fun n => pfx_false_of _ _ _ (by decide) (by decide)),
    cntStr_of_false (pfx "--time ") o.bind mkBind (fun s => pfx_false_of _ _ _ (by decide) (by decide)),
    cntBool_of_false (pfx "--time ") o.udp "--udp" (by decide),
    cntInt_of_false (pfx "--time ") o.interval mkInterval (fun n => pfx_false_of _ _ _ (by decide) (by decide)),
    cntStr_of_false (pfx "--time ") o.bitrate mkBitrate (fun s => pfx_false_of _ _ _ (by decide) (by decide)),
    cntStr_of_false (pfx "--time ") o.length mkLength (fun s => pfx_false_of _ _ _ (by decide) (by decide)),
    cntInt_of_false (pfx "--time ") o.streams mkParallel (fun n => pfx_false_of _ _ _ (by decide) (by decide)),
    cntBool_of_false (pfx "--time ") o.reverse "--reverse" (by decide)]
  simp [hdest, (by decide : pfx "--time " "iperf3" = false),
    (by decide : pfx "--time " "-J" = false)]

theorem count_port (o : Options) :
    (buildCmd o).countP (pfx "--port ") = if truthyInt o.port then 1 else 0 := by
  have hdest : pfx "--port " ("-c " ++ o.dest) = false :=
    pfx_false_of _ _ _ (by decide) (by decide)
  unfold buildCmd
  simp only [List.countP_append, countP_intArg, countP_strArg, countP_boolArg,
    List.countP_cons, List.countP_nil]
  rw [cntInt_of_false (pfx "--port ") o.connection_timeout mkCT (fun n => pfx_false_of _ _ _ (by decide) (by decide)),
    cntInt_of_false (pfx "--port ") o.time mkTime (fun n => pfx_false_of _ _ _ (by decide) (by decide)),
    cntInt_of_true (pfx "--port ") o.port mkPort (fun n => pfx_self_append _ _),
    cntStr_of_false (pfx "--port ") o.bind mkBind (fun s => pfx_false_of _ _ _ (by decide) (by decide)),
    cntBool_of_false (pfx "--port ") o.udp "--udp" (by decide),
    cntInt_of_false (pfx "--port ") o.interval mkInterval (fun n => pfx_false_of _ _ _ (by decide) (by decide)),
    cntStr_of_false (pfx "--port ") o.bitrate mkBitrate (fun s => pfx_false_of _ _ _ (by decide) (by decide)),
    cntStr_of_false (pfx "--port ") o.length mkLength (fun s => pfx_false_of _ _ _ (by decide) (by decide)),
    cntInt_of_false (pfx "--port ") o.streams mkParallel (fun n => pfx_false_of _ _ _ (by decide) (by decide)),
    cntBool_of_false (pfx "--port ") o.reverse "--reverse" (by decide)]
  simp [hdest, (by decide : pfx "--port " "iperf3" = false),
    (by decide : pfx "--port " "-J" = false)]

theorem count_bind (o : Options) :
    (buildCmd o).countP (pfx "--bind ") = if truthyStr o.bind then 1 else 0 := by
  have hdest : pfx "--bind " ("-c " ++ o.dest) = false :=
    pfx_false_of _ _ _ (by decide) (by decide)
  unfold buildCmd
  simp only [List.countP_append, countP_intArg, countP_strArg, countP_boolArg,
    List.countP_cons, List.countP_nil]
  rw [cntInt_of_false (pfx "--bind ") o.connection_timeout mkCT (fun n => pfx_false_of _ _ _ (by decide) (by decide)),
    cntInt_of_false (pfx "--bind ") o.time mkTime (fun n => pfx_false_of _ _ _ (by decide) (by decide)),
    cntInt_of_false (pfx "--bind ") o.port mkPort (fun n => pfx_false_of _ _ _ (by decide) (by decide)),
    cntStr_of_true (pfx "--bind ") o.bind mkBind (fun s => pfx_self_append _ _),
    cntBool_of_false (pfx "--bind ") o.udp "--udp" (by decide),
    cntInt_of_false (pfx "--bind ") o.interval mkInterval (fun n => pfx_false_of _ _ _ (by decide) (by decide)),
    cntStr_of_false (pfx "--bind ") o.bitrate mkBitrate (fun s => pfx_false_of _ _ _ (by decide) (by decide)),
    cntStr_of_false (pfx "--bind ") o.length mkLength (fun s => pfx_false_of _ _ _ (by decide) (by decide)),
    cntInt_of_false (pfx "--bind ") o.streams mkParallel (fun n => pfx_false_of _ _ _ (by decide) (by decide)),
    cntBool_of_false (pfx "--bind ") o.reverse "--reverse" (by decide)]
  simp [hdest, (by decide : pfx "--bind " "iperf3" = false),
    (by decide : pfx "--bind " "-J" = false)]

theorem count_udp (o : Options) :
    (buildCmd o).countP (pfx "--udp") = if truthyBool o.udp then 1 else 0 := by
  have hdest : pfx "--udp" ("-c " ++ o.dest) = false :=
    pfx_false_of _ _ _ (by decide) (by decide)
  unfold buildCmd
  simp only [List.countP_append, countP_intArg, countP_strArg, countP_boolArg,
    List.countP_cons, List.countP_nil]
  rw [cntInt_of_false (pfx "--udp") o.connection_timeout mkCT (fun n => pfx_false_of _ _ _ (by decide) (by decide)),
    cntInt_of_false (pfx "--udp") o.time mkTime (fun n => pfx_false_of _ _ _ (by decide) (by decide)),
    cntInt_of_false (pfx "--udp") o.port mkPort (fun n => pfx_false_of _ _ _ (by decide) (by decide)),
    cntStr_of_false (pfx "--udp") o.bind mkBind (fun s => pfx_false_of _ _ _ (by decide) (by decide)),
    cntBool_of_true (pfx "--udp") o.udp "--udp" (by decide),
    cntInt_of_false (pfx "--udp") o.interval mkInterval (fun n => pfx_false_of _ _ _ (by decide) (by decide)),
    cntStr_of_false (pfx "--udp") o.bitrate mkBitrate (fun s => pfx_false_of _ _ _ (by decide) (by decide)),
    cntStr_of_false (pfx "--udp") o.length mkLength (fun s => pfx_false_of _ _ _ (by decide) (by decide)),
    cntInt_of_false (pfx "--udp") o.streams mkParallel (fun n => pfx_false_of _ _ _ (by decide) (by decide)),
    cntBool_of_false (pfx "--udp") o.reverse "--reverse" (by decide)]
  simp [hdest, (by decide : pfx "--udp" "iperf3" = false),
    (by decide : pfx "--udp" "-J" = false)]

theorem count_interval (o : Options) :
    (buildCmd o).countP (pfx "--interval ") = if truthyInt o.interval then 1 else 0 := by
  have hdest : pfx "--interval " ("-c " ++ o.dest) = false :=
    pfx_false_of _ _ _ (by decide) (by decide)
  unfold buildCmd
  simp only [List.countP_append, countP_intArg, countP_strArg, countP_boolArg,
    List.countP_cons, List.countP_nil]
  rw [cntInt_of_false (pfx "--interval ") o.connection_timeout mkCT (fun n => pfx_false_of _ _ _ (by decide) (by decide)),
    cntInt_of_false (pfx "--interval ") o.time mkTime (fun n => pfx_false_of _ _ _ (by decide) (by decide)),
    cntInt_of_false (pfx "--interval ") o.port mkPort (fun n => pfx_false_of _ _ _ (by decide) (by decide)),
    cntStr_of_false (pfx "--interval ") o.bind mkBind (fun s => pfx_false_of _ _ _ (by decide) (by decide)),
    cntBool_of_false (pfx "--interval ") o.udp "--udp" (by decide),
    cntInt_of_true (pfx "--interval ") o.interval mkInterval (fun n => pfx_self_append _ _),
    cntStr_of_false (pfx "--interval ") o.bitrate mkBitrate (fun s => pfx_false_of _ _ _ (by decide) (by decide)),
    cntStr_of_false (pfx "--interval ") o.length mkLength (fun s => pfx_false_of _ _ _ (by decide) (by decide)),
    cntInt_of_false (pfx "--interval ") o.streams mkParallel (fun n => pfx_false_of _ _ _ (by decide) (by decide)),
    cntBool_of_false (pfx "--interval ") o.reverse "--reverse" (by decide)]
  simp [hdest, (by decide : pfx "--interval " "iperf3" = false),
    (by decide : pfx "--interval " "-J" = false)]

theorem count_bitrate (o : Options) :
    (buildCmd o).countP (pfx "--bitrate ") = if truthyStr o.bitrate then 1 else 0 := by
  have hdest : pfx "--bitrate " ("-c " ++ o.dest) = false :=
    pfx_false_of _ _ _ (by decide) (by decide)
  unfold buildCmd
  simp only [List.countP_append, countP_intArg, countP_strArg, countP_boolArg,
    List.countP_cons, List.countP_nil]
  rw [cntInt_of_false (pfx "--bitrate ") o.connection_timeout mkCT (fun n => pfx_false_of _ _ _ (by decide) (by decide)),
    cntInt_of_false (pfx "--bitrate ") o.time mkTime (fun n => pfx_false_of _ _ _ (by decide) (by decide)),
    cntInt_of_false (pfx "--bitrate ") o.port mkPort (fun n => pfx_false_of _ _ _ (by decide) (by decide)),
    cntStr_of_false (pfx "--bitrate ") o.bind mkBind (fun s => pfx_false_of _ _ _ (by decide) (by decide)),
    cntBool_of_false (pfx "--bitrate ") o.udp "--udp" (by decide),
    cntInt_of_false (pfx "--bitrate ") o.interval mkInterval (fun n => pfx_false_of _ _ _ (by decide) (by decide)),
    cntStr_of_true (pfx "--bitrate ") o.bitrate mkBitrate (fun s => pfx_self_append _ _),
    cntStr_of_false (pfx "--bitrate ") o.length mkLength (fun s => pfx_false_of _ _ _ (by decide) (by decide)),
    cntInt_of_false (pfx "--bitrate ") o.streams mkParallel (fun n => pfx_false_of _ _ _ (by decide) (by decide)),
    cntBool_of_false (pfx "--bitrate ") o.reverse "--reverse" (by decide)]
  simp [hdest, (by decide : pfx "--bitrate " "iperf3" = false),
    (by decide : pfx "--bitrate " "-J" = false)]

theorem count_length (o : Options) :
    (buildCmd o).countP (pfx "--length ") = if truthyStr o.length then 1 else 0 := by
  have hdest : pfx "--length " ("-c " ++ o.dest) = false :=
    pfx_false_of _ _ _ (by decide) (by decide)
  unfold buildCmd
  simp only [List.countP_append, countP_intArg, countP_strArg, countP_boolArg,
    List.countP_cons, List.countP_nil]
  rw [cntInt_of_false (pfx "--length ") o.connection_timeout mkCT (fun n => pfx_false_of _ _ _ (by decide) (by decide)),
    cntInt_of_false (pfx "--length ") o.time mkTime (fun n => pfx_false_of _ _ _ (by decide) (by decide)),
    cntInt_of_false (pfx "--length ") o.port mkPort (fun n => pfx_false_of _ _ _ (by decide) (by decide)),
    cntStr_of_false (pfx "--length ") o.bind mkBind (fun s => pfx_false_of _ _ _ (by decide) (by decide)),
    cntBool_of_false (pfx "--length ") o.udp "--udp" (by decide),
    cntInt_of_false (pfx "--length ") o.interval mkInterval (fun n => pfx_false_of _ _ _ (by decide) (by decide)),
    cntStr_of_false (pfx "--length ") o.bitrate mkBitrate (fun s => pfx_false_of _ _ _ (by decide) (by decide)),
    cntStr_of_true (pfx "--length ") o.length mkLength (fun s => pfx_self_append _ _),
    cntInt_of_false (pfx "--length ") o.streams mkParallel (fun n => pfx_false_of _ _ _ (by decide) (by decide)),
    cntBool_of_false (pfx "--length ") o.reverse "--reverse" (by decide)]
  simp [hdest, (by decide : pfx "--length " "iperf3" = false),
    (by decide : pfx "--length " "-J" = false)]

theorem count_parallel (o : Options) :
    (buildCmd o).countP (pfx "--parallel ") = if truthyInt o.streams then 1 else 0 := by
  have hdest : pfx "--parallel " ("-c " ++ o.dest) = false :=
    pfx_false_of _ _ _ (by decide) (by decide)
  unfold buildCmd
  simp only [List.countP_append, countP_intArg, countP_strArg, countP_boolArg,
    List.countP_cons, List.countP_nil]
  rw [cntInt_of_false (pfx "--parallel ") o.connection_timeout mkCT (fun n => pfx_false_of _ _ _ (by decide) (by decide)),
    cntInt_of_false (pfx "--parallel ") o.time mkTime (fun n => pfx_false_of _ _ _ (by decide) (by decide)),
    cntInt_of_false (pfx "--parallel ") o.port mkPort (fun n => pfx_false_of _ _ _ (by decide) (by decide)),
    cntStr_of_false (pfx "--parallel ") o.bind mkBind (fun s => pfx_false_of _ _ _ (by decide) (by decide)),
    cntBool_of_false (pfx "--parallel ") o.udp "--udp" (by decide),
    cntInt_of_false (pfx "--parallel ") o.interval mkInterval (fun n => pfx_false_of _ _ _ (by decide) (by decide)),
    cntStr_of_false (pfx "--parallel ") o.bitrate mkBitrate (fun s => pfx_false_of _ _ _ (by decide) (by decide)),
    cntStr_of_false (pfx "--parallel ") o.length mkLength (fun s => pfx_false_of _ _ _ (by decide) (by decide)),
    cntInt_of_true (pfx "--parallel ") o.streams mkParallel (fun n => pfx_self_append _ _),
    cntBool_of_false (pfx "--parallel ") o.reverse "--reverse" (by decide)]
  simp [hdest, (by decide : pfx "--parallel " "iperf3" = false),
    (by decide : pfx "--parallel " "-J" = false)]

theorem count_reverse (o : Options) :
    (buildCmd o).countP (pfx "--reverse") = if truthyBool o.reverse then 1 else 0 := by
  have hdest : pfx "--reverse" ("-c " ++ o.dest) = false :=
    pfx_false_of _ _ _ (by decide) (by decide)
  unfold buildCmd
  simp only [List.countP_append, countP_intArg, countP_strArg, countP_boolArg,
    List.countP_cons, List.countP_nil]
  rw [cntInt_of_false (pfx "--reverse") o.connection_timeout mkCT (fun n => pfx_false_of _ _ _ (by decide) (by decide)),
    cntInt_of_false (pfx "--reverse") o.time mkTime (fun n => pfx_false_of _ _ _ (by decide) (by decide)),
    cntInt_of_false (pfx "--reverse") o.port mkPort (fun n => pfx_false_of _ _ _ (by decide) (by decide)),
    cntStr_of_false (pfx "--reverse") o.bind mkBind (fun s => pfx_false_of _ _ _ (by decide) (by decide)),
    cntBool_of_false (pfx "--reverse") o.udp "--udp" (by decide),
    cntInt_of_false (pfx "--reverse") o.interval mkInterval (fun n => pfx_false_of _ _ _ (by decide) (by decide)),
    cntStr_of_false (pfx "--reverse") o.bitrate mkBitrate (fun s => pfx_false_of _ _ _ (by decide) (by decide)),
    cntStr_of_false (pfx "--reverse") o.length mkLength (fun s => pfx_false_of _ _ _ (by decide) (by decide)),
    cntInt_of_false (pfx "--reverse") o.streams mkParallel (fun n => pfx_false_of _ _ _ (by decide) (by decide)),
    cntBool_of_true (pfx "--reverse") o.reverse "--reverse" (by decide)]
  simp [hdest, (by decide : pfx "--reverse" "iperf3" = false),
    (by decide : pfx "--reverse" "-J" = false)]

theorem count_dest (o : Options) :
    (buildCmd o).countP (pfx "-c ") = 1 := by
  have hdest : pfx "-c " ("-c " ++ o.dest) = true :=
    pfx_self_append "-c " o.dest
  unfold buildCmd
  simp only [List.countP_append, countP_intArg, countP_strArg, countP_boolArg,
    List.countP_cons, List.countP_nil]
  rw [cntInt_of_false (pfx "-c ") o.connection_timeout mkCT (fun n => pfx_false_of _ _ _ (by decide) (by decide)),
    cntInt_of_false (pfx "-c ") o.time mkTime (fun n => pfx_false_of _ _ _ (by decide) (by decide)),
    cntInt_of_false (pfx "-c ") o.port mkPort (fun n => pfx_false_of _ _ _ (by decide) (by decide)),
    cntStr_of_false (pfx "-c ") o.bind mkBind (fun s => pfx_false_of _ _ _ (by decide) (by decide)),
    cntBool_of_false (pfx "-c ") o.udp "--udp" (by decide),
    cntInt_of_false (pfx "-c ") o.interval mkInterval (fun n => pfx_false_of _ _ _ (by decide) (by decide)),
    cntStr_of_false (pfx "-c ") o.bitrate mkBitrate (fun s => pfx_false_of _ _ _ (by decide) (by decide)),
    cntStr_of_false (pfx "-c ") o.length mkLength (fun s => pfx_false_of _ _ _ (by decide) (by decide)),
    cntInt_of_false (pfx "-c ") o.streams mkParallel (fun n => pfx_false_of _ _ _ (by decide) (by decide)),
    cntBool_of_false (pfx "-c ") o.reverse "--reverse" (by decide)]
  simp [hdest, (by decide : pfx "-c " "iperf3" = false),
    (by decide : pfx "-c " "-J" = false)]

theorem count_json (o : Options) :
    (buildCmd o).countP (pfx "-J") = 1 := by
  have hdest : pfx "-J" ("-c " ++ o.dest) = false :=
    pfx_false_of _ _ _ (by decide) (by decide)
  unfold buildCmd
  simp only [List.countP_append, countP_intArg, countP_strArg, countP_boolArg,
    List.countP_cons, List.countP_nil]
  rw [cntInt_of_false (pfx "-J") o.connection_timeout mkCT (fun n => pfx_false_of _ _ _ (by decide) (by decide)),
    cntInt_of_false (pfx "-J") o.time mkTime (fun n => pfx_false_of _ _ _ (by decide) (by decide)),
    cntInt_of_false (pfx "-J") o.port mkPort (fun n => pfx_false_of _ _ _ (by decide) (by decide)),
    cntStr_of_false (pfx "-J") o.bind mkBind (fun s => pfx_false_of _ _ _ (by decide) (by decide)),
    cntBool_of_false (pfx "-J") o.udp "--udp" (by decide),
    cntInt_of_false (pfx "-J") o.interval mkInterval (fun n => pfx_false_of _ _ _ (by decide) (by decide)),
    cntStr_of_false (pfx "-J") o.bitrate mkBitrate (fun s => pfx_false_of _ _ _ (by decide) (by decide)),
    cntStr_of_false (pfx "-J") o.length mkLength (fun s => pfx_false_of _ _ _ (by decide) (by decide)),
    cntInt_of_false (pfx "-J") o.streams mkParallel (fun n => pfx_false_of _ _ _ (by decide) (by decide)),
    cntBool_of_false (pfx "-J") o.reverse "--reverse" (by decide)]
  simp [hdest, (by decide : pfx "-J" "iperf3" = false),
    (by decide : pfx "-J" "-J" = true)]

/-- C5: for every option set, the built argument list contains the
destination flag (`-c`) exactly once and the machine-readable-output
flag (`-J`) exactly once, and each optional flag — time, port, bind,
udp, interval, bitrate, length, streams (`--parallel`), reverse,
connect-timeout — appears iff the corresponding option is
present/truthy. -/
theorem c5_flags (o : Options) :
    (buildCmd o).countP (pfx "-c ") = 1
    ∧ (buildCmd o).countP (pfx "-J") = 1
    ∧ (0 < (buildCmd o).countP (pfx "--time ") ↔ truthyInt o.time = true)
    ∧ (0 < (buildCmd o).countP (pfx "--port ") ↔ truthyInt o.port = true)
    ∧ (0 < (buildCmd o).countP (pfx "--bind ") ↔ truthyStr o.bind = true)
    ∧ (0 < (buildCmd o).countP (pfx "--udp") ↔ truthyBool o.udp = true)
    ∧ (0 < (buildCmd o).countP (pfx "--interval ") ↔ truthyInt o.interval = true)
    ∧ (0 < (buildCmd o).countP (pfx "--bitrate ") ↔ truthyStr o.bitrate = true)
    ∧ (0 < (buildCmd o).countP (pfx "--length ") ↔ truthyStr o.length = true)
    ∧ (0 < (buildCmd o).countP (pfx "--parallel ") ↔ truthyInt o.streams = true)
    ∧ (0 < (buildCmd o).countP (pfx "--reverse") ↔ truthyBool o.reverse = true)
    ∧ (0 < (buildCmd o).countP (pfx "--connect-timeout ")
        ↔ truthyInt o.connection_timeout = true) := by
  refine ⟨count_dest o, count_json o, ?_, ?_, ?_, ?_, ?_, ?_, ?_, ?_, ?_, ?_⟩
  · rw [count_time o]
    cases h : truthyInt o.time <;> simp
  · rw [count_port o]
    cases h : truthyInt o.port <;> simp
  · rw [count_bind o]
    cases h : truthyStr o.bind <;> simp
  · rw [count_udp o]
    cases h : truthyBool o.udp <;> simp
  · rw [count_interval o]
    cases h : truthyInt o.interval <;> simp
  · rw [count_bitrate o]
    cases h : truthyStr o.bitrate <;> simp
  · rw [count_length o]
    cases h : truthyStr o.length <;> simp
  · rw [count_parallel o]
    cases h : truthyInt o.streams <;> simp
  · rw [count_reverse o]
    cases h : truthyBool o.reverse <;> simp
  · rw [count_ct o]
    cases h : truthyInt o.connection_timeout <;> simp

/-- C6: whenever the connection timeout option holds a truthy value `t`
(seconds), the built command contains the element
`--connect-timeout (t * 1000)` (milliseconds) — exactly once — and every
other present/truthy optional field likewise contributes exactly one
flag element. -/
theorem c6_timeout (o : Options) (t : ℤ) (h : o.connection_timeout = some t)
    (ht : ¬ t = 0) :
    ("--connect-timeout " ++ toString (t * 1000)) ∈ buildCmd o
    ∧ (buildCmd o).countP (pfx "--connect-timeout ") = 1
    ∧ (truthyInt o.time = true → (buildCmd o).countP (pfx "--time ") = 1)
    ∧ (truthyInt o.port = true → (buildCmd o).countP (pfx "--port ") = 1)
    ∧ (truthyStr o.bind = true → (buildCmd o).countP (pfx "--bind ") = 1)
    ∧ (truthyBool o.udp = true → (buildCmd o).countP (pfx "--udp") = 1)
    ∧ (truthyInt o.interval = true → (buildCmd o).countP (pfx "--interval ") = 1)
    ∧ (truthyStr o.bitrate = true → (buildCmd o).countP (pfx "--bitrate ") = 1)
    ∧ (truthyStr o.length = true → (buildCmd o).countP (pfx "--length ") = 1)
    ∧ (truthyInt o.streams = true → (buildCmd o).countP (pfx "--parallel ") = 1)
    ∧ (truthyBool o.reverse = true → (buildCmd o).countP (pfx "--reverse") = 1) := by
  refine ⟨?_, ?_, ?_, ?_, ?_, ?_, ?_, ?_, ?_, ?_, ?_⟩
  · unfold buildCmd
    rw [h]
    simp [intArg, ht, mkCT]
  · rw [count_ct o, h]
    simp [truthyInt, ht]
  · intro hx
    rw [count_time o, hx]
    rfl
  · intro hx
    rw [count_port o, hx]
    rfl
  · intro hx
    rw [count_bind o, hx]
    rfl
  · intro hx
    rw [count_udp o, hx]
    rfl
  · intro hx
    rw [count_interval o, hx]
    rfl
  · intro hx
    rw [count_bitrate o, hx]
    rfl
  · intro hx
    rw [count_length o, hx]
    rfl
  · intro hx
    rw [count_parallel o, hx]
    rfl
  · intro hx
    rw [count_reverse o, hx]
    rfl

theorem c6_timeout_witness :
    ("--connect-timeout " ++ toString ((5 : ℤ) * 1000)) ∈ buildCmd sampleOptions :=
  (c6_timeout sampleOptions 5 rfl (by decide)).1
